import Mathlib

/-!
Verification development for the sensor-endpoint layer in `src/src/subdevice.h`
(namespace `rsimpl`).  The C++ header is shallowly embedded: machine integers
become `Int` with explicit two's-complement reduction where the code relies on
wraparound, member functions on stateful objects become explicit
state-passing functions, and external collaborators (the HID/UVC transport
device, the frame pool, the `lazy` template) are modelled by explicit state
or, where their bodies are not part of the source tree, from the design
document's description (each such definition is marked `Modelled from the
spec`).
-/

namespace Subdevice

/-- Two's-complement reduction of an integer to a signed 32-bit value, i.e.
the value of the low 32 bits read as `int32_t`.  This is the wraparound that
`rolling_timestamp_reader::get_frame_timestamp` relies on for its delta
(the source comments: "Relies on undefined behavior: signed int wraparound";
the intended semantics is ordinary two's-complement wrap). -/
def wrap32 (x : Int) : Int := (x + 2 ^ 31) % 2 ^ 32 - 2 ^ 31

/-- Two's-complement reduction to a signed 64-bit value, for the `int64_t`
accumulator `total`. -/
def wrap64 (x : Int) : Int := (x + 2 ^ 63) % 2 ^ 64 - 2 ^ 63

/-- Mirror of `uvc::stream_profile` (an external collaborator type): the
hardware-reported capability descriptor.  Only `width`/`height` are consumed
by the code under verification (through `get_image_size`). -/
structure UvcStreamProfile where
  width : Nat
  height : Nat
  fps : Nat
  format : Nat

/-- Mirror of `native_pixel_format` as consumed by `subdevice.h`: the only
member used there is the decoded-image-size function. -/
structure NativePixelFormat where
  get_image_size : Nat → Nat → Nat

/-- Mirror of `request_mapping` as consumed by `rolling_timestamp_reader`:
a pixel format `pf` and the native profile whose dimensions feed
`get_image_size`. -/
structure RequestMapping where
  pf : NativePixelFormat
  profile : UvcStreamProfile

/-- `mode.pf->get_image_size(mode.profile.width, mode.profile.height)`:
the byte length of the decoded image region scanned by `validate_frame`. -/
def image_size (mode : RequestMapping) : Nat :=
  mode.pf.get_image_size mode.profile.width mode.profile.height

/-- `rolling_timestamp_reader::validate_frame` (src/src/subdevice.h:114-128):
walk the image region byte by byte and return `true` at the first nonzero
byte; return `false` when the whole region is zero.  A frame buffer is a list
of bytes; the scanned region is its first `image_size mode` bytes (the C++
caller guarantees the buffer is at least that long). -/
def validate_frame (mode : RequestMapping) (frame : List Nat) : Bool :=
  (frame.take (image_size mode)).any (fun b => b != 0)

/-- The mutable state of one `rolling_timestamp_reader`
(src/src/subdevice.h:105-151): `started`, the 64-bit accumulator `total`,
the 32-bit `last_timestamp`, and the 64-bit per-call `counter`.
In the C++ constructor `last_timestamp` is left uninitialized but is written
before its first read (the `!started` branch), so the model's initial value 0
is never observable. -/
structure ReaderState where
  started : Bool
  total : Int
  last_timestamp : Int
  counter : Nat

/-- `rolling_timestamp_reader::rolling_timestamp_reader()` :
`started()`, `total()` zero-initialize; `counter = 0` in-class. -/
def initReader : ReaderState :=
  { started := false, total := 0, last_timestamp := 0, counter := 0 }

/-- Little-endian read of the first four bytes of a frame as an `int32_t`
(`*reinterpret_cast<const int32_t *>(frame)`). -/
def read_rolling_timestamp (frame : List Nat) : Int :=
  wrap32 ((frame.take 4).foldr (fun b acc => acc * 256 + (b % 256 : Nat)) 0)

/-- `rolling_timestamp_reader::get_frame_timestamp`
(src/src/subdevice.h:130-146), as a state transformer.  The argument `c` is
the raw counter value whose low 32 bits the code reads from the frame's first
four bytes (`wrap32 c` is what the `int32_t` read yields).  On the first call
`last_timestamp` is seeded with the current value so the delta is zero; the
delta `rolling_timestamp - last_timestamp` wraps as a signed 32-bit
subtraction; `total += delta` is 64-bit; the returned value is
`static_cast<int>(total / 100000)` — a truncated (toward zero) 64-bit
quotient narrowed to a signed 32-bit int, returned as an (integral-valued)
double. -/
def get_frame_timestamp (s : ReaderState) (c : Int) : ReaderState × Int :=
  let rolling_timestamp := wrap32 c
  let last0 := if s.started then s.last_timestamp else rolling_timestamp
  let delta := wrap32 (rolling_timestamp - last0)
  let total := wrap64 (s.total + delta)
  let timestamp := wrap32 (Int.tdiv total 100000)
  ({ s with started := true, total := total, last_timestamp := rolling_timestamp },
   timestamp)

/-- Byte-level wrapper: read the counter from the frame, then step. -/
def get_frame_timestamp_frame (s : ReaderState) (frame : List Nat) :
    ReaderState × Int :=
  get_frame_timestamp s (read_rolling_timestamp frame)

/-- `rolling_timestamp_reader::get_frame_counter`
(src/src/subdevice.h:147-150): `return ++counter;` — the mode and frame
arguments are ignored (commented out in the source). -/
def get_frame_counter (s : ReaderState) (_mode : RequestMapping)
    (_frame : List Nat) : ReaderState × Nat :=
  ({ s with counter := s.counter + 1 }, s.counter + 1)

/-- Feed a list of raw counter values through `get_frame_timestamp`,
collecting the returned timestamps. -/
def runTS (s : ReaderState) : List Int → ReaderState × List Int
  | [] => (s, [])
  | c :: cs =>
    let p1 := get_frame_timestamp s c
    let p2 := runTS p1.1 cs
    (p2.1, p1.2 :: p2.2)

/-- One call on a `rolling_timestamp_reader`, for interleaving arguments:
`validate` is const and state-free, `timestamp` runs the delta accumulator,
`counterCall` bumps the per-call counter. -/
inductive ReaderOp where
  | validate (mode : RequestMapping) (frame : List Nat)
  | timestamp (c : Int)
  | counterCall (mode : RequestMapping) (frame : List Nat)

/-- Run a sequence of reader calls, collecting the values returned by the
`get_frame_counter` calls only. -/
def runOps (s : ReaderState) : List ReaderOp → ReaderState × List Nat
  | [] => (s, [])
  | ReaderOp.validate _ _ :: rest => runOps s rest
  | ReaderOp.timestamp c :: rest => runOps (get_frame_timestamp s c).1 rest
  | ReaderOp.counterCall m f :: rest =>
    let p1 := get_frame_counter s m f
    let p2 := runOps p1.1 rest
    (p2.1, p1.2 :: p2.2)

/-- Number of `get_frame_counter` calls in a call sequence. -/
def countCounterCalls : List ReaderOp → Nat
  | [] => 0
  | ReaderOp.validate _ _ :: rest => countCounterCalls rest
  | ReaderOp.timestamp _ :: rest => countCounterCalls rest
  | ReaderOp.counterCall _ _ :: rest => countCounterCalls rest + 1

/-- A device-power side effect of the power gate: the transport device is
powered on (`set_power_state(D0)`) or off (`D3`). -/
inductive PowerEffect where
  | on
  | off
deriving DecidableEq

/-- Modelled from the spec: the body of `uvc_endpoint::acquire_power` is only
declared in src/src/subdevice.h:240; per the design document (§4.3), it
increments the shared user count and powers the device on when the
pre-increment value was 0.  The count mirrors `std::atomic<int> _user_count`
(src line 265). -/
def acquire_power (user_count : Int) : Int × List PowerEffect :=
  (user_count + 1, if user_count = 0 then [PowerEffect.on] else [])

/-- Modelled from the spec: the body of `uvc_endpoint::release_power` is only
declared in src/src/subdevice.h:242; per the design document (§4.3), it
decrements the shared user count and powers the device off when the
post-decrement value is 0. -/
def release_power (user_count : Int) : Int × List PowerEffect :=
  (user_count - 1, if user_count - 1 = 0 then [PowerEffect.off] else [])

/-- `uvc_endpoint::power::power` (src/src/subdevice.h:248-253): lock the weak
owner pointer; call `acquire_power` only when the owner is still alive. -/
def power_ctor (owner_alive : Bool) (user_count : Int) : Int × List PowerEffect :=
  if owner_alive then acquire_power user_count else (user_count, [])

/-- `uvc_endpoint::power::~power` (src/src/subdevice.h:255-259): lock the weak
owner pointer; call `release_power` only when the owner is still alive. -/
def power_dtor (owner_alive : Bool) (user_count : Int) : Int × List PowerEffect :=
  if owner_alive then release_power user_count else (user_count, [])

/-- One event of a token lifetime on a live endpoint: a `power` token is
constructed or destructed. -/
inductive TokenEvent where
  | construct
  | destruct

/-- Run a sequence of token constructions/destructions against a live owning
endpoint, threading the shared user count and concatenating the emitted
power side effects in order. -/
def run_tokens (user_count : Int) : List TokenEvent → Int × List PowerEffect
  | [] => (user_count, [])
  | TokenEvent.construct :: es =>
    let p1 := power_ctor true user_count
    let p2 := run_tokens p1.1 es
    (p2.1, p1.2 ++ p2.2)
  | TokenEvent.destruct :: es =>
    let p1 := power_dtor true user_count
    let p2 := run_tokens p1.1 es
    (p2.1, p1.2 ++ p2.2)

/-- Net change a sequence of token events makes to the user count. -/
def net_count : List TokenEvent → Int
  | [] => 0
  | TokenEvent.construct :: es => 1 + net_count es
  | TokenEvent.destruct :: es => -1 + net_count es

/-- The side effects dictated purely by the counter trajectory: `on` exactly
at a 0 → 1 transition of the count, `off` exactly at a 1 → 0 transition,
and nothing anywhere else. -/
def transition_effects (user_count : Int) : List TokenEvent → List PowerEffect
  | [] => []
  | TokenEvent.construct :: es =>
    (if user_count = 0 ∧ user_count + 1 = 1 then [PowerEffect.on] else []) ++
      transition_effects (user_count + 1) es
  | TokenEvent.destruct :: es =>
    (if user_count = 1 ∧ user_count - 1 = 0 then [PowerEffect.off] else []) ++
      transition_effects (user_count - 1) es

/-- State of the `lazy<T>` cache used for `_stream_profiles`. -/
structure LazyState (α : Type) where
  cache : Option α

/-- Modelled from the spec: the `lazy<T>` container is defined outside src/;
per the design document, the value is "computed once on first access and
cached for the Endpoint's remaining lifetime".  An access returns the cached
value when present; otherwise it runs the computation, stores the result and
returns it.  The third component counts how many times this access invoked
the underlying computation (0 or 1). -/
def lazy_access {α : Type} (compute : Unit → α) (s : LazyState α) :
    α × LazyState α × Nat :=
  match s.cache with
  | some v => (v, s, 0)
  | none =>
    let v := compute ()
    (v, ⟨some v⟩, 1)

/-- `endpoint::get_stream_profiles` (src/src/subdevice.h:32-35): dereference
the `_stream_profiles` lazy member, which the constructor (src line 29)
seeded with the subclass's `init_stream_profiles` enumeration. -/
def get_stream_profiles {α : Type} (init_stream_profiles : Unit → α)
    (s : LazyState α) : α × LazyState α × Nat :=
  lazy_access init_stream_profiles s

/-- Run `n` successive `get_stream_profiles` accesses, collecting the
returned lists and the total number of `init_stream_profiles` invocations. -/
def run_accesses {α : Type} (init_stream_profiles : Unit → α)
    (s : LazyState α) : Nat → LazyState α × List α × Nat
  | 0 => (s, [], 0)
  | n + 1 =>
    let p1 := get_stream_profiles init_stream_profiles s
    let p2 := run_accesses init_stream_profiles p1.2.1 n
    (p2.1, p1.1 :: p2.2.1, p1.2.2 + p2.2.2)

/-- The base-class state set up by `endpoint::endpoint`
(src/src/subdevice.h:24-29); the lazy profile cache is carried separately
(`LazyState`) because its element type is the subclass enumeration's. -/
structure EndpointState where
  is_streaming : Bool
  is_opened : Bool
  has_callback : Bool
  max_publish_list_size : Nat

/-- `endpoint::endpoint()` (src/src/subdevice.h:24-29): not streaming, not
opened, null callback, `_max_publish_list_size(16)`. -/
def endpoint_init : EndpointState :=
  { is_streaming := false, is_opened := false, has_callback := false,
    max_publish_list_size := 16 }

/-- Modelled from the spec: the body of `endpoint::alloc_frame` is only
declared in src/src/subdevice.h:41; per the design document (§4.1/§7), it
returns a null/empty result — not an error — under backpressure, i.e. when
the frame pool is exhausted or when the number of simultaneously published,
unreleased frames has reached `max_publish_list_size`; otherwise it returns
an allocated frame (modelled as its size). -/
def alloc_frame (s : EndpointState) (pool_exhausted : Bool)
    (published_count : Nat) (size : Nat) : Option Nat :=
  if pool_exhausted || s.max_publish_list_size ≤ published_count then none
  else some size

/-- Mirror of `uvc::hid_sensor` as consumed by `hid_endpoint`: a named
hardware sensor. -/
structure HidSensor where
  name : String

/-- State of the external `uvc::hid_device` collaborator: whether it is open
and the sensor list it reports. -/
structure HidDeviceState where
  is_open : Bool
  sensors : List HidSensor

/-- One device-I/O call the HID endpoint constructor makes on the transport
device. -/
inductive HidCall where
  | open_device
  | get_sensors
  | close_device
deriving DecidableEq

/-- `uvc::hid_device::open`, modelled as a state update on the device. -/
def hid_open (d : HidDeviceState) : HidDeviceState := { d with is_open := true }

/-- `uvc::hid_device::close`, modelled as a state update on the device. -/
def hid_close (d : HidDeviceState) : HidDeviceState := { d with is_open := false }

/-- `uvc::hid_device::get_sensors`: the device's current sensor list. -/
def hid_get_sensors (d : HidDeviceState) : List HidSensor := d.sensors

/-- `hid_endpoint::hid_endpoint` (src/src/subdevice.h:156-164): open the
device, `push_back` each element of `get_sensors()` into `_hid_sensors`,
close the device.  Returns the stored sensor snapshot, the device state when
the constructor returns, and the I/O trace it performed. -/
def hid_endpoint_ctor (d : HidDeviceState) :
    List HidSensor × HidDeviceState × List HidCall :=
  let d1 := hid_open d
  let copied := (hid_get_sensors d1).foldl (fun acc e => acc ++ [e]) []
  let d2 := hid_close d1
  (copied, d2, [HidCall.open_device, HidCall.get_sensors, HidCall.close_device])

/-- A request mapping whose pixel format reports a 2 × 2 = 4-byte image. -/
def mode_witness : RequestMapping := ⟨⟨fun w h => w * h⟩, ⟨2, 2, 30, 0⟩⟩

/-- A request mapping whose pixel format reports a zero-byte image. -/
def mode_zero : RequestMapping := ⟨⟨fun _ _ => 0⟩, ⟨640, 480, 30, 0⟩⟩

/-! ## Helper lemmas -/

/-- `List.range'` peels one element definitionally. -/
theorem range'_cons (a n : Nat) : List.range' a (n + 1) = a :: List.range' (a + 1) n :=
  rfl

/-- Folding `push_back` over a list appends it to the accumulator. -/
theorem foldl_push_eq {α : Type} (l : List α) :
    ∀ acc : List α, l.foldl (fun a e => a ++ [e]) acc = acc ++ l := by
  induction l with
  | nil => intro acc; simp
  | cons x xs ih => intro acc; simp [List.foldl_cons, ih]

/-- The user count after a token sequence is the start plus the net change,
and the emitted power effects are exactly the 0 → 1 / 1 → 0 transition
effects of the counter trajectory. -/
theorem run_tokens_eq (es : List TokenEvent) :
    ∀ c : Int, run_tokens c es = (c + net_count es, transition_effects c es) := by
  induction es with
  | nil => intro c; simp [run_tokens, net_count, transition_effects]
  | cons e es ih =>
    intro c
    cases e with
    | construct =>
      have hcond : (c = 0 ∧ c + 1 = 1) ↔ c = 0 := by
        constructor
        · rintro ⟨h, _⟩; exact h
        · intro h; exact ⟨h, by omega⟩
      simp only [run_tokens, power_ctor, acquire_power, if_true, net_count,
        transition_effects, ih, hcond]
      refine Prod.ext ?_ rfl
      simp only []
      omega
    | destruct =>
      have hcond : (c = 1 ∧ c - 1 = 0) ↔ c - 1 = 0 := by
        constructor
        · rintro ⟨_, h⟩; exact h
        · intro h; exact ⟨by omega, h⟩
      simp only [run_tokens, power_dtor, release_power, if_true, net_count,
        transition_effects, ih, hcond]
      refine Prod.ext ?_ rfl
      simp only []
      omega

/-- After any reader-call sequence, the per-call counter has advanced by the
number of `get_frame_counter` calls, and those calls returned the consecutive
values `s.counter + 1, s.counter + 2, …`. -/
theorem runOps_spec (ops : List ReaderOp) :
    ∀ s : ReaderState,
      (runOps s ops).1.counter = s.counter + countCounterCalls ops ∧
      (runOps s ops).2 = List.range' (s.counter + 1) (countCounterCalls ops) := by
  induction ops with
  | nil => intro s; simp [runOps, countCounterCalls]
  | cons op rest ih =>
    intro s
    cases op with
    | validate m f => simpa [runOps, countCounterCalls] using ih s
    | timestamp c =>
      have hc : (get_frame_timestamp s c).1.counter = s.counter := rfl
      have h := ih (get_frame_timestamp s c).1
      rw [hc] at h
      simpa [runOps, countCounterCalls] using h
    | counterCall m f =>
      have h := ih { s with counter := s.counter + 1 }
      simp only [runOps, countCounterCalls, get_frame_counter] at h ⊢
      refine ⟨by omega, ?_⟩
      rw [h.2, range'_cons]

/-- Once the lazy cache holds `v`, every further access returns `v` and never
invokes the computation again. -/
theorem run_accesses_cached {α : Type} (f : Unit → α) (v : α) :
    ∀ n : Nat, run_accesses f ⟨some v⟩ n = (⟨some v⟩, List.replicate n v, 0) := by
  intro n
  induction n with
  | zero => simp [run_accesses]
  | succ n ih =>
    simp [run_accesses, get_stream_profiles, lazy_access, ih, List.replicate]

/-! ## Claim theorems -/

/-- C1 (amended): on every call to `get_frame_timestamp` after the first, the
delta is `current - last_timestamp` with 32-bit signed wraparound, it is
accumulated into the 64-bit total, `last_timestamp` is updated to the current
value, and the returned timestamp is the truncated quotient `total / 100000`
narrowed to a signed 32-bit int (equal to `total / 100000` itself whenever
that quotient fits in the 32-bit signed range, as it does everywhere in the
example); for the counter sequence `[100, 150, 2^31 - 10, -2^31 + 5]` the
returned timestamps are `[0, 0, 21474, 21474]`, a non-decreasing sequence,
with the delta across the rollover boundary wrapping to the small positive
value 15 rather than a large negative jump. -/
theorem c1_rolling_delta_accumulation :
    (∀ (s : ReaderState) (c : Int), s.started = true →
        (get_frame_timestamp s c).1.last_timestamp = wrap32 c ∧
        (get_frame_timestamp s c).1.total =
          wrap64 (s.total + wrap32 (wrap32 c - s.last_timestamp)) ∧
        (get_frame_timestamp s c).2 =
          wrap32 (Int.tdiv
            (wrap64 (s.total + wrap32 (wrap32 c - s.last_timestamp))) 100000)) ∧
    ((runTS initReader [100, 150, 2 ^ 31 - 10, -(2 ^ 31) + 5]).2 =
        [0, 0, 21474, 21474] ∧
      List.Chain' (fun a b => a ≤ b)
        (runTS initReader [100, 150, 2 ^ 31 - 10, -(2 ^ 31) + 5]).2 ∧
      wrap32 ((-(2 ^ 31) + 5) - (2 ^ 31 - 10)) = 15 ∧ (0 : Int) < 15) := by
  refine ⟨?_, by decide, ?_, by decide, by norm_num⟩
  · intro s c h
    simp [get_frame_timestamp, h]
  · have houts : (runTS initReader [100, 150, 2 ^ 31 - 10, -(2 ^ 31) + 5]).2 =
        [0, 0, 21474, 21474] := by decide
    rw [houts]
    simp [List.chain'_cons]

/-- C1 witness: the amended per-call statement applied at a started reader
with `total = 50`, `last_timestamp = 150`, fed the pre-rollover counter
`2^31 - 10`. -/
theorem c1_rolling_delta_accumulation_witness :
    (⟨true, 50, 150, 0⟩ : ReaderState).started = true ∧
    ((get_frame_timestamp ⟨true, 50, 150, 0⟩ 2147483638).1.last_timestamp =
        wrap32 2147483638 ∧
      (get_frame_timestamp ⟨true, 50, 150, 0⟩ 2147483638).1.total =
        wrap64 (50 + wrap32 (wrap32 2147483638 - 150)) ∧
      (get_frame_timestamp ⟨true, 50, 150, 0⟩ 2147483638).2 =
        wrap32 (Int.tdiv (wrap64 (50 + wrap32 (wrap32 2147483638 - 150))) 100000)) :=
  ⟨rfl, c1_rolling_delta_accumulation.1 ⟨true, 50, 150, 0⟩ 2147483638 rfl⟩

/-- C1 counterexample: the returned timestamp is NOT always the exact 64-bit
quotient `total / 100000`: at a started reader whose accumulated total is
3·10^14 (reachable after roughly 140 000 maximal positive deltas), the
quotient is 3 000 000 000, which does not fit in a signed 32-bit int, so the
value actually returned is its two's-complement narrowing −1 294 967 296. -/
theorem c1_quotient_narrowing_cex :
    ¬ ((get_frame_timestamp ⟨true, 300000000000000, 0, 0⟩ 0).2 =
        Int.tdiv (get_frame_timestamp ⟨true, 300000000000000, 0, 0⟩ 0).1.total
          100000) := by
  decide

/-- C2: for every sequence of Power Gate token constructions and destructions
on a live Video Endpoint, each construction increments the shared user count
and emits the power-on side effect exactly when the count was 0 (the 0 → 1
transition), each destruction decrements the count and emits the power-off
side effect exactly when the count reaches 0 (the 1 → 0 transition), and over
a whole sequence the emitted side effects are exactly the 0 → 1 / 1 → 0
transition effects of the counter trajectory — once per transition, never
more. -/
theorem c2_power_gate_refcount :
    (∀ c : Int, (power_ctor true c).1 = c + 1) ∧
    (∀ c : Int, (power_ctor true c).2 =
        if c = 0 then [PowerEffect.on] else []) ∧
    (∀ c : Int, (power_dtor true c).1 = c - 1) ∧
    (∀ c : Int, (power_dtor true c).2 =
        if c = 1 then [PowerEffect.off] else []) ∧
    (∀ (c : Int) (es : List TokenEvent),
        run_tokens c es = (c + net_count es, transition_effects c es)) := by
  refine ⟨fun c => rfl, fun c => rfl, fun c => rfl, ?_, fun c es => run_tokens_eq es c⟩
  intro c
  by_cases h : c = 1
  · simp [power_dtor, release_power, h]
  · have h' : ¬ (c - 1 = 0) := by omega
    simp [power_dtor, release_power, h, h']

/-- C3 counterexample: destroying a Power Gate token after the owning
endpoint has been destroyed (weak owner expired) while the shared count is
still 1 does NOT emit the power-off side effect — `power::~power` locks the
weak owner pointer and simply skips `release_power` when the lock fails. -/
theorem c3_expired_owner_no_release_cex :
    ¬ PowerEffect.off ∈ (power_dtor false 1).2 := by
  decide

/-- C3 (amended): if the owning endpoint has been destroyed while a token is
still held, destroying the token performs no power operation at all — the
count is unchanged and no side effect fires; the power-off side effect of
token destruction occurs only while the owner is still alive (where a
destruction at count 1 does emit it). -/
theorem c3_expired_owner_amended :
    (∀ c : Int, power_dtor false c = (c, [])) ∧
    (power_dtor true 1).2 = [PowerEffect.off] :=
  ⟨fun _ => rfl, by decide⟩

/-- C4: `validate_frame` returns `false` on every frame whose decoded image
region (the first `pf->get_image_size(width, height)` bytes) is entirely
zero, and `true` on every frame whose image region contains at least one
nonzero byte. -/
theorem c4_validate_frame_zero_scan (mode : RequestMapping) (frame : List Nat) :
    ((∀ b ∈ frame.take (image_size mode), b = 0) →
        validate_frame mode frame = false) ∧
    ((∃ b ∈ frame.take (image_size mode), b ≠ 0) →
        validate_frame mode frame = true) := by
  constructor
  · intro h
    simp only [validate_frame, List.any_eq_false, bne_iff_ne, ne_eq,
      Decidable.not_not]
    exact h
  · rintro ⟨b, hb, hbne⟩
    simp only [validate_frame, List.any_eq_true, bne_iff_ne, ne_eq]
    exact ⟨b, hb, hbne⟩

/-- C4 witness: with a 2 × 2 single-byte-per-pixel mapping (image size 4),
the all-zero buffer is rejected and a buffer with exactly one nonzero byte is
accepted. -/
theorem c4_validate_frame_zero_scan_witness :
    validate_frame mode_witness [0, 0, 0, 0] = false ∧
    validate_frame mode_witness [0, 1, 0, 0] = true :=
  ⟨(c4_validate_frame_zero_scan mode_witness [0, 0, 0, 0]).1 (by decide),
   (c4_validate_frame_zero_scan mode_witness [0, 1, 0, 0]).2 (by decide)⟩

/-- C5: over any sequence of reader calls, the values returned by the
`get_frame_counter` calls on a fresh reader are `1, 2, 3, …` — the Nth such
call returns N — regardless of the interleaved `validate_frame` and
`get_frame_timestamp` calls; moreover `get_frame_counter` ignores the request
mapping and the frame buffer entirely. -/
theorem c5_frame_counter_sequence :
    (∀ ops : List ReaderOp,
        (runOps initReader ops).2 = List.range' 1 (countCounterCalls ops)) ∧
    (∀ (s : ReaderState) (m m2 : RequestMapping) (f f2 : List Nat),
        get_frame_counter s m f = get_frame_counter s m2 f2) := by
  constructor
  · intro ops
    have h := (runOps_spec ops initReader).2
    simpa [initReader] using h
  · intro s m m2 f f2
    rfl

/-- C6: `get_stream_profiles` invokes the subclass's `init_stream_profiles`
enumeration exactly once — on the first access — and all `n ≥ 1` accesses
return that same cached list. -/
theorem c6_stream_profiles_lazy_once {α : Type} (init_stream_profiles : Unit → α)
    (n : Nat) (h : 1 ≤ n) :
    (run_accesses init_stream_profiles ⟨none⟩ n).2.1 =
        List.replicate n (init_stream_profiles ()) ∧
    (run_accesses init_stream_profiles ⟨none⟩ n).2.2 = 1 := by
  obtain ⟨m, rfl⟩ : ∃ m, n = m + 1 := ⟨n - 1, by omega⟩
  simp [run_accesses, get_stream_profiles, lazy_access, run_accesses_cached,
    List.replicate]

/-- C6 witness: three accesses on a fresh cache with a concrete enumeration
invoke it once and all return its value. -/
theorem c6_stream_profiles_lazy_once_witness :
    (run_accesses (fun _ => ([42] : List Nat)) ⟨none⟩ 3).2.1 =
        List.replicate 3 ((fun _ => ([42] : List Nat)) ()) ∧
    (run_accesses (fun _ => ([42] : List Nat)) ⟨none⟩ 3).2.2 = 1 :=
  c6_stream_profiles_lazy_once (fun _ => [42]) 3 (by norm_num)

/-- C7: `alloc_frame` returns an empty result — `none`, not an error — exactly
when the frame pool is exhausted or the count of simultaneously published,
unreleased frames has reached `max_publish_list_size`, and a newly
constructed endpoint has `max_publish_list_size = 16`. -/
theorem c7_alloc_frame_backpressure :
    (∀ (s : EndpointState) (pool_exhausted : Bool) (published_count size : Nat),
        alloc_frame s pool_exhausted published_count size = none ↔
          (pool_exhausted = true ∨
            s.max_publish_list_size ≤ published_count)) ∧
    endpoint_init.max_publish_list_size = 16 := by
  refine ⟨?_, rfl⟩
  intro s pe pc size
  cases pe <;> by_cases h : s.max_publish_list_size ≤ pc <;>
    simp [alloc_frame, h]

/-- C8: every value `get_frame_timestamp` returns is the 64-bit accumulator
divided by 100000 with truncation toward zero and then narrowed through a
signed 32-bit int (hence always an integral value even though the C++ return
type is `double`); and the first call on a fresh reader returns 0 no matter
what counter value is read from the frame. -/
theorem c8_timestamp_integral_first_zero :
    (∀ c : Int, (get_frame_timestamp initReader c).2 = 0) ∧
    (∀ (s : ReaderState) (c : Int),
        (get_frame_timestamp s c).2 =
          wrap32 (Int.tdiv (get_frame_timestamp s c).1.total 100000)) := by
  constructor
  · intro c
    simp [get_frame_timestamp, initReader, wrap32, wrap64]
  · intro s c
    rfl

/-- C9: the HID endpoint constructor performs its device I/O before
returning: it opens the transport device, copies the device's current sensor
list into the endpoint's stored vector (so the list observed later is the
construction-time snapshot), and closes the device again — the device is
closed when the constructor returns and the I/O trace is exactly
open, get_sensors, close. -/
theorem c9_hid_ctor_snapshot (d : HidDeviceState) :
    (hid_endpoint_ctor d).1 = d.sensors ∧
    (hid_endpoint_ctor d).2.1.is_open = false ∧
    (hid_endpoint_ctor d).2.2 =
      [HidCall.open_device, HidCall.get_sensors, HidCall.close_device] := by
  refine ⟨?_, rfl, rfl⟩
  simp [hid_endpoint_ctor, hid_get_sensors, hid_open, foldl_push_eq]

/-- C10: when the mapping reports a decoded image size of zero bytes, the
scan is empty and `validate_frame` returns `false` for every buffer. -/
theorem c10_zero_size_invalid (mode : RequestMapping) (frame : List Nat)
    (h : image_size mode = 0) : validate_frame mode frame = false := by
  simp [validate_frame, h]

/-- C10 witness: a mapping whose `get_image_size` is constantly 0 classifies
a nonzero buffer as invalid. -/
theorem c10_zero_size_invalid_witness :
    image_size mode_zero = 0 ∧ validate_frame mode_zero [5, 5] = false :=
  ⟨rfl, c10_zero_size_invalid mode_zero [5, 5] rfl⟩

end Subdevice
